import Mathlib

/-!
Shallow embedding of `src/coordinates.cc` (astronomical coordinate
transformations between the galactic, ICRS and ecliptic frames).

Conventions of the embedding:
* C++ `double` values are modelled as exact real numbers (`ℝ`); the purely
  rational angle-parsing layer is modelled over `ℚ` so that it stays
  executable and decidable.
* C++ strings are modelled as `String` / `List Char`; `std::string` equality
  and `toupper` act on the character list.
* Fallible operations return `Except CoordErr`; an out-of-bounds
  `std::vector`/`std::valarray` element access (undefined behaviour in C++)
  is modelled as the distinguished outcome `CoordErr.outOfBounds`.
* `std::valarray<std::valarray<double>>` (`valarray2d`) is modelled as a list
  of rows; the fill constructor `valarray2d(std::valarray<double>(k), n)`
  becomes `List.replicate n (List.replicate k 0)`.
-/

/-- Error taxonomy of the specification: dimension mismatches in the algebra
layer, malformed angle strings, unknown transformation names, the zero-radius
domain error, and the extra outcome modelling an out-of-bounds element access
(undefined behaviour in the C++ source). -/
inductive CoordErr : Type
  | dimensionError : CoordErr
  | formatError : CoordErr
  | unknownTransformationError : CoordErr
  | domainError : CoordErr
  | outOfBounds : CoordErr
deriving DecidableEq, Repr

/-- One `std::getline(ss, item, delim)` loop step: `getlineAux delim cs acc`
returns the fields produced by repeatedly reading up to the delimiter,
starting with the partial field `acc`.  `getline` fails only when the stream
is already exhausted, so a trailing delimiter does not produce a trailing
empty field. -/
def getlineAux (delim : Char) : List Char → List Char → List (List Char)
  | [], acc => [acc]
  | c :: cs, acc =>
    if c = delim then
      acc :: (match cs with
              | [] => []
              | _ :: _ => getlineAux delim cs [])
    else getlineAux delim cs (acc ++ [c])

/-- The sequence of fields read by the `while (std::getline(ss, item, delim))`
loop of `split_string`: no field at all for the empty string, otherwise the
delimiter-separated fields without a trailing empty field. -/
def getlineFields (delim : Char) (l : List Char) : List (List Char) :=
  match l with
  | [] => []
  | _ :: _ => getlineAux delim l []

/-- `split_string(s, delim, skip_empty)`: splits `s` at `delim`; a field is
kept when it is non-empty, or when `skip_empty` is not set (the loop body
pushes `item` if `item.size() > 0`, and otherwise only if `not skip_empty`). -/
def split_string (s : String) (delim : Char) (skip_empty : Bool) : List (List Char) :=
  (getlineFields delim s.data).filter (fun item => item.length > 0 || !skip_empty)

/-- Value of a digit string (base 10), used by the `std::stod` model. -/
def digitsToNat (l : List Char) : ℕ :=
  l.foldl (fun a c => 10 * a + (c.toNat - 48)) 0

/-- Core of the `std::stod` model on an unsigned token: an initial digit run,
optionally followed by `.` and a fractional digit run.  Returns `none` when
the token does not start with a digit or has trailing non-digit characters
(`std::stod` throws `std::invalid_argument` / the numeral does not cover the
token).  Exponent forms are outside the fragment exercised here. -/
def stodCore (ds : List Char) : Option ℚ :=
  if ds.takeWhile Char.isDigit = [] then none
  else
    match ds.dropWhile Char.isDigit with
    | [] => some (digitsToNat (ds.takeWhile Char.isDigit))
    | c :: fr =>
      if c = '.' ∧ fr.all Char.isDigit then
        some ((digitsToNat (ds.takeWhile Char.isDigit) : ℚ) +
              (digitsToNat fr : ℚ) / 10 ^ fr.length)
      else none

/-- Model of `std::stod` on a token (optional sign, then `stodCore`),
restricted to plain decimal numerals; the numeric value is exact (`ℚ`). -/
def stodList? (l : List Char) : Option ℚ :=
  match l with
  | [] => none
  | c :: r =>
    if c = '-' then (stodCore r).map (fun q => -q)
    else if c = '+' then stodCore r
    else stodCore l

/-- `std::stod` lifted into the error monad: a token that does not parse is a
`formatError` (the spec's FormatError for non-numeric tokens). -/
def stodE (l : List Char) : Except CoordErr ℚ :=
  match stodList? l with
  | some v => Except.ok v
  | none => Except.error CoordErr.formatError

/-- `operator[]` of `std::vector`/`std::valarray`: in-bounds access yields the
element, out-of-bounds access is undefined behaviour, modelled as
`CoordErr.outOfBounds`. -/
def idx {α : Type} (l : List α) (i : ℕ) : Except CoordErr α :=
  match l.get? i with
  | some a => Except.ok a
  | none => Except.error CoordErr.outOfBounds

/-- A 2d matrix as used by the source (`valarray2d`), generically over the
element ring. -/
abbrev valarray2d (α : Type) : Type := List (List α)

/-- Double element access `A[i][j]`. -/
def idx2 {α : Type} (A : valarray2d α) (i j : ℕ) : Except CoordErr α := do
  let row ← idx A i
  idx row j

/-- Element write `y[i] = v` with the same out-of-bounds model as `idx`. -/
def setIdx {α : Type} (l : List α) (i : ℕ) (v : α) : Except CoordErr (List α) :=
  if i < l.length then Except.ok (l.set i v) else Except.error CoordErr.outOfBounds

/-- Element write `C[i][j] = v` with the same out-of-bounds model as `idx2`. -/
def setIdx2 {α : Type} (C : valarray2d α) (i j : ℕ) (v : α) : Except CoordErr (valarray2d α) :=
  match C.get? i with
  | none => Except.error CoordErr.outOfBounds
  | some row =>
    if j < row.length then Except.ok (C.set i (row.set j v))
    else Except.error CoordErr.outOfBounds

/-- `transpose(A)`: reads `m = A.size()`, `n = A[0].size()` (an element access
that is out of bounds for a rowless matrix), allocates `n` rows of length `m`,
then writes `C[j][i] = A[i][j]`. -/
def transpose {α : Type} [CommRing α] (A : valarray2d α) : Except CoordErr (valarray2d α) := do
  let A0 ← idx A 0
  let m := A.length
  let n := A0.length
  let C0 : valarray2d α := List.replicate n (List.replicate m 0)
  (List.range m).foldlM (fun C i =>
    (List.range n).foldlM (fun C j => do
      let aij ← idx2 A i j
      setIdx2 C j i aij) C) C0

/-- Matrix-matrix `dot(A, B)`: computes `mA, nA, mB, nB` (reading `A[0]` and
`B[0]` before any check), fails with a DimensionError when `nA ≠ mB`, then
allocates the result as `valarray2d(std::valarray<double>(mA), nB)` — that is
`nB` rows of length `mA`, exactly as the source does — and runs the triple
loop `C[i][j] += A[i][k] * B[k][j]`. -/
def dotMatMat {α : Type} [CommRing α] (A B : valarray2d α) : Except CoordErr (valarray2d α) := do
  let A0 ← idx A 0
  let B0 ← idx B 0
  let mA := A.length
  let nA := A0.length
  let mB := B.length
  let nB := B0.length
  if nA ≠ mB then Except.error CoordErr.dimensionError
  else
    let C0 : valarray2d α := List.replicate nB (List.replicate mA 0)
    (List.range mA).foldlM (fun C i =>
      (List.range nB).foldlM (fun C j =>
        (List.range nA).foldlM (fun C k => do
          let aik ← idx2 A i k
          let bkj ← idx2 B k j
          let cij ← idx2 C i j
          setIdx2 C i j (cij + aik * bkj)) C) C) C0

/-- Matrix-vector `dot(A, x)`: computes `m = A.size()`, `n = A[0].size()`
(reading `A[0]` before the check), fails with a DimensionError when
`x.size() ≠ n`, then runs `y[i] += A[i][j] * x[j]` over a zero-initialised
`y` of length `m`. -/
def dotMatVec {α : Type} [CommRing α] (A : valarray2d α) (x : List α) :
    Except CoordErr (List α) := do
  let A0 ← idx A 0
  let m := A.length
  let n := A0.length
  if x.length ≠ n then Except.error CoordErr.dimensionError
  else
    let y0 : List α := List.replicate m 0
    (List.range m).foldlM (fun y i =>
      (List.range n).foldlM (fun y j => do
        let aij ← idx2 A i j
        let xj ← idx x j
        let yi ← idx y i
        setIdx y i (yi + aij * xj)) y) y0

/-- Well-formed `m × n` dense matrix: `m` rows, each of length `n`. -/
def isMat {α : Type} (m n : ℕ) (A : valarray2d α) : Prop :=
  A.length = m ∧ ∀ row ∈ A, row.length = n

instance {α : Type} (m n : ℕ) (A : valarray2d α) : Decidable (isMat m n A) := by
  unfold isMat; infer_instance

/-- `radians(deg) = PI / 180 * deg`. -/
noncomputable def radians (deg : ℝ) : ℝ := Real.pi / 180 * deg

/-- `degrees(rad) = 180 / PI * rad`. -/
noncomputable def degrees (rad : ℝ) : ℝ := 180 / Real.pi * rad

/-- The C `atan2(y, x)`: the argument of the point `(x, y)`, in `(-π, π]`,
with `atan2 0 0 = 0`. -/
noncomputable def atan2 (y x : ℝ) : ℝ := Complex.arg ⟨x, y⟩

/-- `sphericalToCartesian(r, phi, theta)` with `theta` the elevation:
`x = r cos φ cos θ`, `y = r sin φ cos θ`, `z = r sin θ`. -/
noncomputable def sphericalToCartesian (r phi theta : ℝ) : List ℝ :=
  [r * Real.cos phi * Real.cos theta,
   r * Real.sin phi * Real.cos theta,
   r * Real.sin theta]

open Classical in
/-- `cartesianToSpherical(x, y, z)`: fails with a DomainError when
`r = sqrt(x² + y² + z²)` is zero, otherwise returns
`[r, atan2(y, x), atan2(z, sqrt(x² + y²))]`. -/
noncomputable def cartesianToSpherical (x y z : ℝ) : Except CoordErr (List ℝ) :=
  if Real.sqrt ((x * x + y * y) + z * z) = 0 then Except.error CoordErr.domainError
  else Except.ok [Real.sqrt ((x * x + y * y) + z * z),
                  atan2 y x,
                  atan2 z (Real.sqrt (x * x + y * y))]

/-- `parseDmsToDegrees(dms, delimiter)`: splits (skipping empty fields),
rejects more than 3 tokens with a FormatError, then unconditionally evaluates
`stod(elements[0]) + (stod(elements[1]) + stod(elements[2]) / 60) / 60` —
indexing `elements[1]` and `elements[2]` whether or not they exist. -/
def parseDmsToDegrees (dms : String) (delimiter : Char) : Except CoordErr ℚ := do
  let elements := split_string dms delimiter true
  if elements.length > 3 then Except.error CoordErr.formatError
  else do
    let e0 ← idx elements 0
    let d ← stodE e0
    let e1 ← idx elements 1
    let m ← stodE e1
    let e2 ← idx elements 2
    let s ← stodE e2
    pure (d + (m + s / 60) / 60)

/-- `parseHmsToDegrees(hms, delimiter) = parseDmsToDegrees(hms, delimiter) * 15`. -/
def parseHmsToDegrees (hms : String) (delimiter : Char) : Except CoordErr ℚ :=
  (parseDmsToDegrees hms delimiter).map (fun deg => deg * 15)

/-- `elementaryRotationMatrix(axis, angle)`: the matrix is zero-initialised and
each recognized branch assigns all nine entries (the `y` branch writes
`mat[0][1] = 1`, as in the source); an unrecognized axis falls through every
branch and the zero-initialised matrix is returned. -/
noncomputable def elementaryRotationMatrix (axis : String) (angle : ℝ) : valarray2d ℝ :=
  if axis = "x" ∨ axis = "X" then
    [[1, 0, 0],
     [0, Real.cos angle, Real.sin angle],
     [0, -Real.sin angle, Real.cos angle]]
  else if axis = "y" ∨ axis = "Y" then
    [[Real.cos angle, 1, -Real.sin angle],
     [0, 1, 0],
     [Real.sin angle, 0, Real.cos angle]]
  else if axis = "z" ∨ axis = "Z" then
    [[Real.cos angle, Real.sin angle, 0],
     [-Real.sin angle, Real.cos angle, 0],
     [0, 0, 1]]
  else
    [[0, 0, 0], [0, 0, 0], [0, 0, 0]]

/-- Entry `A[i][j]` of a matrix, with out-of-range defaulting to `0`
(used only to state the spec-modelled invariants below). -/
def ent (A : valarray2d ℝ) (i j : ℕ) : ℝ := (A.getD i []).getD j 0

/-- The mathematical 3×3 matrix product, used to state the spec-modelled
invariants about the six fixed constants. -/
def matProd3 (A B : valarray2d ℝ) : valarray2d ℝ :=
  (List.range 3).map (fun i => (List.range 3).map (fun j =>
    Finset.sum (Finset.range 3) (fun k => ent A i k * ent B k j)))

/-- The mathematical 3×3 transpose, used to state the spec-modelled
invariants about the six fixed constants. -/
def transpose3 (A : valarray2d ℝ) : valarray2d ℝ :=
  (List.range 3).map (fun i => (List.range 3).map (fun j => ent A j i))

/-- Modelled from the spec: the six fixed rotation-matrix constants
`_rotationMatrixGalacticToIcrs`, …, `_rotationMatrixEclipticToGalactic` are
declared in `coordinates.hh`, which is not among the sources; only their
names and the spec's invariants about them are available.  The structure
packages the six constants. -/
structure RotationConstants : Type where
  _rotationMatrixGalacticToIcrs : valarray2d ℝ
  _rotationMatrixIcrsToGalactic : valarray2d ℝ
  _rotationMatrixEclipticToIcrs : valarray2d ℝ
  _rotationMatrixIcrsToEcliptic : valarray2d ℝ
  _rotationMatrixGalacticToEcliptic : valarray2d ℝ
  _rotationMatrixEclipticToGalactic : valarray2d ℝ

/-- `_get_rotationMatrix(name)`: upper-cases `name` (`std::transform` with
`toupper`) and dispatches on the six fixed tokens; any other name throws. -/
def _get_rotationMatrix (R : RotationConstants) (name : String) :
    Except CoordErr (valarray2d ℝ) :=
  let NAME := name.data.map Char.toUpper
  if NAME = "GAL2ICRS".data then Except.ok R._rotationMatrixGalacticToIcrs
  else if NAME = "ICRS2GAL".data then Except.ok R._rotationMatrixIcrsToGalactic
  else if NAME = "ECL2ICRS".data then Except.ok R._rotationMatrixEclipticToIcrs
  else if NAME = "ICRS2ECL".data then Except.ok R._rotationMatrixIcrsToEcliptic
  else if NAME = "GAL2ECL".data then Except.ok R._rotationMatrixGalacticToEcliptic
  else if NAME = "ECL2GAL".data then Except.ok R._rotationMatrixEclipticToGalactic
  else Except.error CoordErr.unknownTransformationError

/-- The six recognized (upper-cased) transformation tokens, in dispatch
order. -/
def sixTokens : List (List Char) :=
  ["GAL2ICRS".data, "ICRS2GAL".data, "ECL2ICRS".data,
   "ICRS2ECL".data, "GAL2ECL".data, "ECL2GAL".data]

/-- `apply_transformation(name, phi, theta, use_degrees)`: converts the input
angles to radians when `use_degrees` is set, builds the unit Cartesian vector,
resolves and applies the rotation matrix, converts back to spherical, keeps
the two angles `rab[1]`, `rab[2]`, and converts back to degrees when
`use_degrees` is set. -/
noncomputable def apply_transformation (R : RotationConstants) (name : String)
    (phi theta : ℝ) (use_degrees : Bool) : Except CoordErr (List ℝ) := do
  let xyz := if use_degrees then sphericalToCartesian 1 (radians phi) (radians theta)
             else sphericalToCartesian 1 phi theta
  let mat ← _get_rotationMatrix R name
  let xyzrot ← dotMatVec mat xyz
  let x0 ← idx xyzrot 0
  let x1 ← idx xyzrot 1
  let x2 ← idx xyzrot 2
  let rab ← cartesianToSpherical x0 x1 x2
  let a ← idx rab 1
  let b ← idx rab 2
  if use_degrees then pure [degrees a, degrees b]
  else pure [a, b]

/-- The 3×3 identity matrix. -/
def id3 : valarray2d ℝ := [[1, 0, 0], [0, 1, 0], [0, 0, 1]]

/-- Modelled from the spec: the invariants the spec states for the six
constants — each is a 3×3 matrix, the two matrices of each direction pair are
mutual transposes, and applying a matrix after its partner's matrix is the
identity transform (each pair of named matrices are mutual inverses). -/
structure SpecInvariants (R : RotationConstants) : Prop where
  gi_shape : isMat 3 3 R._rotationMatrixGalacticToIcrs
  ig_shape : isMat 3 3 R._rotationMatrixIcrsToGalactic
  ei_shape : isMat 3 3 R._rotationMatrixEclipticToIcrs
  ie_shape : isMat 3 3 R._rotationMatrixIcrsToEcliptic
  ge_shape : isMat 3 3 R._rotationMatrixGalacticToEcliptic
  eg_shape : isMat 3 3 R._rotationMatrixEclipticToGalactic
  gi_transpose : transpose3 R._rotationMatrixGalacticToIcrs =
    R._rotationMatrixIcrsToGalactic
  ei_transpose : transpose3 R._rotationMatrixEclipticToIcrs =
    R._rotationMatrixIcrsToEcliptic
  ge_transpose : transpose3 R._rotationMatrixGalacticToEcliptic =
    R._rotationMatrixEclipticToGalactic
  ig_gi : matProd3 R._rotationMatrixIcrsToGalactic R._rotationMatrixGalacticToIcrs = id3
  gi_ig : matProd3 R._rotationMatrixGalacticToIcrs R._rotationMatrixIcrsToGalactic = id3
  ie_ei : matProd3 R._rotationMatrixIcrsToEcliptic R._rotationMatrixEclipticToIcrs = id3
  ei_ie : matProd3 R._rotationMatrixEclipticToIcrs R._rotationMatrixIcrsToEcliptic = id3
  eg_ge : matProd3 R._rotationMatrixEclipticToGalactic R._rotationMatrixGalacticToEcliptic = id3
  ge_eg : matProd3 R._rotationMatrixGalacticToEcliptic R._rotationMatrixEclipticToGalactic = id3

/-- The six (name, documented inverse name) pairs of the transformation
table. -/
def InversePair (n n' : String) : Prop :=
  (n = "GAL2ICRS" ∧ n' = "ICRS2GAL") ∨ (n = "ICRS2GAL" ∧ n' = "GAL2ICRS") ∨
  (n = "ECL2ICRS" ∧ n' = "ICRS2ECL") ∨ (n = "ICRS2ECL" ∧ n' = "ECL2ICRS") ∨
  (n = "GAL2ECL" ∧ n' = "ECL2GAL") ∨ (n = "ECL2GAL" ∧ n' = "GAL2ECL")

/-- A concrete instance of the six constants satisfying every spec invariant
(all six matrices the identity), used to instantiate the parametric
theorems. -/
def idConstants : RotationConstants :=
  ⟨id3, id3, id3, id3, id3, id3⟩

/-! ## Generic reduction helpers -/

theorem except_bind_ok {α β : Type} (a : α) (f : α → Except CoordErr β) :
    (Except.ok a : Except CoordErr α) >>= f = f a := rfl

theorem except_bind_err {α β : Type} (e : CoordErr) (f : α → Except CoordErr β) :
    (Except.error e : Except CoordErr α) >>= f = Except.error e := rfl

theorem except_pure_eq_ok {α : Type} (a : α) : (pure a : Except CoordErr α) = Except.ok a := rfl

/-! ## C3: unrecognized axis in elementaryRotationMatrix -/

/-- C3: the claim states that `elementaryRotationMatrix` fails with an
UnknownTransformationError on every axis outside `{x, X, y, Y, z, Z}`.  The
source has no `else` branch that throws (despite its own doc comment
`@throws Exception Wrong axis`): the zero-initialised matrix falls through
and is returned.  Evaluating at the unrecognized axis `"w"` exhibits the
divergence. -/
theorem elementaryRotationMatrix_unknown_axis_returns_zero :
    elementaryRotationMatrix "w" 1 = [[0, 0, 0], [0, 0, 0], [0, 0, 0]] ∧
    elementaryRotationMatrix "w" 1 ≠ [] := by
  rw [elementaryRotationMatrix, if_neg (by decide), if_neg (by decide), if_neg (by decide)]
  exact ⟨rfl, by simp⟩

/-! ## C4: layout of the elementary rotation matrices -/

/-- C4: the claim states that rotation about `y` leaves the second row and the
second column as identity (conventional layout `[[cos a, 0, -sin a], [0, 1, 0],
[sin a, 0, cos a]]`).  The source writes `mat[0][1] = 1`, so the produced
matrix has second column `(1, 1, 0)`; at angle `0` the result differs from the
identity matrix the convention demands. -/
theorem elementaryRotationMatrix_y_wrong_entry :
    (∀ a : ℝ, elementaryRotationMatrix "y" a =
      [[Real.cos a, 1, -Real.sin a], [0, 1, 0], [Real.sin a, 0, Real.cos a]]) ∧
    elementaryRotationMatrix "y" 0 ≠ [[1, 0, 0], [0, 1, 0], [0, 0, 1]] := by
  have hy : ∀ a : ℝ, elementaryRotationMatrix "y" a =
      [[Real.cos a, 1, -Real.sin a], [0, 1, 0], [Real.sin a, 0, Real.cos a]] := by
    intro a
    rw [elementaryRotationMatrix, if_neg (by decide),
      if_pos (Or.inl rfl : ("y" : String) = "y" ∨ ("y" : String) = "Y")]
  refine ⟨hy, ?_⟩
  rw [hy 0]
  simp

/-! ## C10: zero-row matrices reach out-of-bounds indexing -/

/-- C10: `transpose` and both matrix overloads of `dot` read `A[0]` (and
`B[0]`) to obtain column counts before any dimension check, so a matrix with
zero rows reaches an out-of-bounds element access — modelled as
`CoordErr.outOfBounds` — rather than a DimensionError, whatever the other
argument is. -/
theorem zero_row_matrix_out_of_bounds (B : valarray2d ℝ) (x : List ℝ) :
    transpose ([] : valarray2d ℝ) = Except.error CoordErr.outOfBounds ∧
    dotMatMat ([] : valarray2d ℝ) B = Except.error CoordErr.outOfBounds ∧
    dotMatMat B ([] : valarray2d ℝ) = Except.error CoordErr.outOfBounds ∧
    dotMatVec ([] : valarray2d ℝ) x = Except.error CoordErr.outOfBounds := by
  refine ⟨rfl, rfl, ?_, rfl⟩
  cases B with
  | nil => rfl
  | cons h t => rfl

/-! ## C5: the matrix product allocates the result transposed -/

/-- C5: the claim states that for compatible inner dimensions `dot(A, B)`
returns the standard `mA × nB` product for all shapes, not only square
results.  The source allocates `C` as `valarray2d(std::valarray<double>(mA),
nB)` — `nB` rows of length `mA` — so whenever `mA ≠ nB` the write `C[i][j]`
goes out of bounds.  With `A` of shape 1×2 and `B` of shape 2×2 (compatible,
expected product `[[13, 16]]`) the evaluation reaches the out-of-bounds
access instead of returning the product. -/
theorem dot_nonsquare_out_of_bounds :
    dotMatMat ([[1, 2]] : valarray2d ℝ) [[3, 4], [5, 6]] =
      Except.error CoordErr.outOfBounds ∧
    dotMatMat ([[1, 2]] : valarray2d ℝ) [[3, 4, 7], [5, 6, 8]] ≠
      Except.error CoordErr.dimensionError := by
  exact ⟨rfl, by rw [show dotMatMat ([[1, 2]] : valarray2d ℝ) [[3, 4, 7], [5, 6, 8]] =
    Except.error CoordErr.outOfBounds from rfl]; simp⟩

/-! ## Evaluation helpers for the stod model and the DMS parser -/

theorem stodCore_all_digits (ds : List Char) (hne : ds ≠ [])
    (hd : ∀ c ∈ ds, c.isDigit = true) : stodCore ds = some ((digitsToNat ds : ℚ)) := by
  have htake : ds.takeWhile Char.isDigit = ds := List.takeWhile_eq_self_iff.mpr hd
  have hdrop : ds.dropWhile Char.isDigit = [] := List.dropWhile_eq_nil_iff.mpr hd
  simp only [stodCore, htake, hdrop, if_neg hne]

theorem stodList?_all_digits (ds : List Char) (hne : ds ≠ [])
    (hd : ∀ c ∈ ds, c.isDigit = true) : stodList? ds = some ((digitsToNat ds : ℚ)) := by
  cases ds with
  | nil => exact absurd rfl hne
  | cons c r =>
    have hc : c.isDigit = true := hd c (by simp)
    have hcm : c ≠ '-' := by rintro rfl; simp at hc
    have hcp : c ≠ '+' := by rintro rfl; simp at hc
    simp only [stodList?, if_neg hcm, if_neg hcp]
    exact stodCore_all_digits (c :: r) hne hd

theorem stod_ten : stodList? "10".data = some 10 := by
  rw [stodList?_all_digits "10".data (by decide) (by decide),
    show digitsToNat "10".data = 10 from by decide]
  norm_num

theorem stod_thirty : stodList? "30".data = some 30 := by
  rw [stodList?_all_digits "30".data (by decide) (by decide),
    show digitsToNat "30".data = 30 from by decide]
  norm_num

theorem stod_zero : stodList? "00".data = some 0 := by
  rw [stodList?_all_digits "00".data (by decide) (by decide),
    show digitsToNat "00".data = 0 from by decide]
  norm_num

theorem parseDms_three (s : String) (delim : Char) (t0 t1 t2 : List Char) (d m sec : ℚ)
    (hsplit : split_string s delim true = [t0, t1, t2])
    (h0 : stodList? t0 = some d) (h1 : stodList? t1 = some m)
    (h2 : stodList? t2 = some sec) :
    parseDmsToDegrees s delim = Except.ok (d + (m + sec / 60) / 60) := by
  simp [parseDmsToDegrees, hsplit, idx, stodE, h0, h1, h2, Bind.bind, Except.bind,
    pure, Except.pure]


/-! ## C9: empty tokens are silently dropped before counting -/

/-- C9: `split_string` is called by the parsers with the default
`skip_empty = true`, so empty fields produced by repeated, leading or
trailing delimiters are discarded before the token count is checked: no
empty token ever appears in the result, and `"10::30:00"` is accepted by
`parseDmsToDegrees` (and hence `parseHmsToDegrees`) as its three non-empty
tokens rather than rejected with a FormatError. -/
theorem split_string_drops_empty_tokens :
    (∀ (s : String) (d : Char), [] ∉ split_string s d true) ∧
    split_string "10::30:00" ':' true = ["10".data, "30".data, "00".data] ∧
    parseDmsToDegrees "10::30:00" ':' = Except.ok (21 / 2) ∧
    parseHmsToDegrees "10::30:00" ':' = Except.ok (315 / 2) := by
  have hdms : parseDmsToDegrees "10::30:00" ':' = Except.ok (21 / 2) := by
    rw [parseDms_three "10::30:00" ':' "10".data "30".data "00".data 10 30 0
      (by decide) stod_ten stod_thirty stod_zero]
    norm_num
  refine ⟨?_, by decide, hdms, ?_⟩
  · intro s d hmem
    rw [split_string] at hmem
    have h := List.of_mem_filter hmem
    simp at h
  · rw [parseHmsToDegrees, hdms]
    show Except.ok ((21 / 2 : ℚ) * 15) = _
    norm_num

/-! ## C2: token combination in parseDmsToDegrees -/

/-- C2: the claim states that any input splitting into 1–3 numeric tokens is
combined positionally, a 1- or 2-token input from just the supplied tokens.
On the source, only 3-token inputs are combined as `d + (m + s/60)/60`; a 1-
or 2-token input unconditionally indexes `elements[1]`/`elements[2]` and
reaches an out-of-bounds vector access instead of returning a value. -/
theorem parseDms_token_combination (s : String) (delim : Char) (ts : List (List Char))
    (hts : split_string s delim true = ts) :
    (∀ t0 t1 t2 d m sec, ts = [t0, t1, t2] →
        stodList? t0 = some d → stodList? t1 = some m → stodList? t2 = some sec →
        parseDmsToDegrees s delim = Except.ok (d + (m + sec / 60) / 60)) ∧
    ((ts.length = 1 ∨ ts.length = 2) → (∀ t ∈ ts, (stodList? t).isSome) →
        parseDmsToDegrees s delim = Except.error CoordErr.outOfBounds) := by
  constructor
  · rintro t0 t1 t2 d m sec rfl h0 h1 h2
    exact parseDms_three s delim t0 t1 t2 d m sec hts h0 h1 h2
  · rintro (h | h) hnum
    · obtain ⟨t0, rfl⟩ := List.length_eq_one.mp h
      obtain ⟨d, hd⟩ := Option.isSome_iff_exists.mp (hnum t0 (by simp))
      simp [parseDmsToDegrees, hts, idx, stodE, hd, Bind.bind, Except.bind]
    · obtain ⟨t0, t1, rfl⟩ := List.length_eq_two.mp h
      obtain ⟨d, hd⟩ := Option.isSome_iff_exists.mp (hnum t0 (by simp))
      obtain ⟨m, hm⟩ := Option.isSome_iff_exists.mp (hnum t1 (by simp))
      simp [parseDmsToDegrees, hts, idx, stodE, hd, hm, Bind.bind, Except.bind]

/-- C2 counterexample: the single numeric token `"10"` is in the claim's
scope (1–3 numeric tokens) and the claim predicts the value `10`; the source
instead reaches the out-of-bounds access. -/
theorem parseDms_single_token_cex :
    split_string "10" ':' true = ["10".data] ∧
    stodList? "10".data = some 10 ∧
    parseDmsToDegrees "10" ':' = Except.error CoordErr.outOfBounds ∧
    parseDmsToDegrees "10" ':' ≠ Except.ok 10 := by
  have h : parseDmsToDegrees "10" ':' = Except.error CoordErr.outOfBounds := by
    simp [parseDmsToDegrees, show split_string "10" ':' true = ["10".data] from by decide,
      idx, stodE, show stodList? ['1', '0'] = some 10 from stod_ten, Bind.bind, Except.bind]
  refine ⟨by decide, stod_ten, h, ?_⟩
  rw [h]
  simp

/-- C2 witness: a 3-token input, combined as the amended claim states. -/
theorem parseDms_token_combination_witness :
    split_string "10:30:00" ':' true = ["10".data, "30".data, "00".data] ∧
    parseDmsToDegrees "10:30:00" ':' = Except.ok ((10 : ℚ) + (30 + 0 / 60) / 60) :=
  ⟨by decide,
   (parseDms_token_combination "10:30:00" ':' ["10".data, "30".data, "00".data]
      (by decide)).1 "10".data "30".data "00".data 10 30 0 rfl
      stod_ten stod_thirty stod_zero⟩

/-! ## C8: case-insensitive dispatch over exactly six names -/

/-- C8: `apply_transformation` resolves its name through
`_get_rotationMatrix`, which upper-cases the name and dispatches on exactly
the six tokens: the result depends only on the upper-cased name (case
insensitivity), a name whose upper-casing is one of the six tokens resolves
to a matrix, and every other name fails with an UnknownTransformationError
instead of any default. -/
theorem get_rotationMatrix_case_insensitive_six (R : RotationConstants) (name : String) :
    (∀ other : String, name.data.map Char.toUpper = other.data.map Char.toUpper →
        _get_rotationMatrix R name = _get_rotationMatrix R other) ∧
    (name.data.map Char.toUpper ∈ sixTokens →
        ∃ M, _get_rotationMatrix R name = Except.ok M) ∧
    (name.data.map Char.toUpper ∉ sixTokens →
        _get_rotationMatrix R name = Except.error CoordErr.unknownTransformationError) := by
  refine ⟨?_, ?_, ?_⟩
  · intro other h
    simp only [_get_rotationMatrix, h]
  · intro h
    simp only [sixTokens, List.mem_cons, List.mem_singleton, List.not_mem_nil, or_false] at h
    rcases h with h | h | h | h | h | h <;>
      [exact ⟨R._rotationMatrixGalacticToIcrs, by simp [_get_rotationMatrix, h]⟩;
       exact ⟨R._rotationMatrixIcrsToGalactic, by simp [_get_rotationMatrix, h]⟩;
       exact ⟨R._rotationMatrixEclipticToIcrs, by simp [_get_rotationMatrix, h]⟩;
       exact ⟨R._rotationMatrixIcrsToEcliptic, by simp [_get_rotationMatrix, h]⟩;
       exact ⟨R._rotationMatrixGalacticToEcliptic, by simp [_get_rotationMatrix, h]⟩;
       exact ⟨R._rotationMatrixEclipticToGalactic, by simp [_get_rotationMatrix, h]⟩]
  · intro h
    simp only [sixTokens, List.mem_cons, List.mem_singleton, List.not_mem_nil, or_false,
      not_or] at h
    obtain ⟨h1, h2, h3, h4, h5, h6⟩ := h
    simp only [_get_rotationMatrix, if_neg h1, if_neg h2, if_neg h3, if_neg h4,
      if_neg h5, if_neg h6]

/-- C8 witness: `"gal2icrs"` resolves case-insensitively to the same matrix
as `"GAL2ICRS"`, and the unknown name `"FOO2BAR"` is a terminal error. -/
theorem get_rotationMatrix_case_insensitive_six_witness :
    _get_rotationMatrix idConstants "gal2icrs" = _get_rotationMatrix idConstants "GAL2ICRS" ∧
    (∃ M, _get_rotationMatrix idConstants "gal2icrs" = Except.ok M) ∧
    _get_rotationMatrix idConstants "FOO2BAR" =
      Except.error CoordErr.unknownTransformationError :=
  ⟨(get_rotationMatrix_case_insensitive_six idConstants "gal2icrs").1 "GAL2ICRS" (by decide),
   (get_rotationMatrix_case_insensitive_six idConstants "gal2icrs").2.1 (by decide),
   (get_rotationMatrix_case_insensitive_six idConstants "FOO2BAR").2.2 (by decide)⟩

/-! ## atan2 and cartesianToSpherical helpers -/

theorem atan2_mem_Ioc (y x : ℝ) : atan2 y x ∈ Set.Ioc (-Real.pi) Real.pi :=
  Complex.arg_mem_Ioc _

theorem atan2_scale {t : ℝ} (ht : 0 < t) (y x : ℝ) : atan2 (t * y) (t * x) = atan2 y x := by
  have h : (⟨t * x, t * y⟩ : ℂ) = (t : ℂ) * ⟨x, y⟩ := by
    apply Complex.ext <;> simp
  rw [atan2, h, Complex.arg_real_mul _ ht, atan2]

theorem atan2_cos_sin {phi : ℝ} (h : phi ∈ Set.Ioc (-Real.pi) Real.pi) :
    atan2 (Real.sin phi) (Real.cos phi) = phi := by
  rw [atan2, Complex.mk_eq_add_mul_I, Complex.ofReal_cos, Complex.ofReal_sin]
  exact Complex.arg_cos_add_sin_mul_I h

theorem atan2_zero_zero : atan2 0 0 = 0 := by
  rw [atan2]
  rw [show (⟨0, 0⟩ : ℂ) = 0 from rfl, Complex.arg_zero]

theorem atan2_one_zero : atan2 1 0 = Real.pi / 2 := by
  rw [atan2]
  rw [show (⟨0, 1⟩ : ℂ) = Complex.I from rfl, Complex.arg_I]

theorem atan2_zero_neg_one : atan2 0 (-1) = Real.pi := by
  rw [atan2]
  rw [show (⟨-1, 0⟩ : ℂ) = -1 from by apply Complex.ext <;> simp, Complex.arg_neg_one]

theorem atan2_zero_one : atan2 0 1 = 0 := by
  rw [atan2]
  rw [show (⟨1, 0⟩ : ℂ) = 1 from by apply Complex.ext <;> simp, Complex.arg_one]

theorem abs_complex_mk (x y : ℝ) : Complex.abs ⟨x, y⟩ = Real.sqrt (x * x + y * y) := by
  rw [Complex.abs_apply, Complex.normSq_mk]

theorem cartesianToSpherical_ok (x y z : ℝ) (h : Real.sqrt ((x * x + y * y) + z * z) ≠ 0) :
    cartesianToSpherical x y z =
      Except.ok [Real.sqrt ((x * x + y * y) + z * z), atan2 y x,
                 atan2 z (Real.sqrt (x * x + y * y))] := by
  rw [cartesianToSpherical, if_neg h]

theorem sqrt_sum_sq_eq_zero_iff (x y z : ℝ) :
    Real.sqrt ((x * x + y * y) + z * z) = 0 ↔ x = 0 ∧ y = 0 ∧ z = 0 := by
  rw [Real.sqrt_eq_zero
    (by nlinarith [mul_self_nonneg x, mul_self_nonneg y, mul_self_nonneg z])]
  constructor
  · intro h
    refine ⟨?_, ?_, ?_⟩ <;> nlinarith
  · rintro ⟨rfl, rfl, rfl⟩
    ring

/-! ## C6: domain and value of cartesianToSpherical -/

/-- C6: `cartesianToSpherical` fails with a DomainError exactly when
`sqrt(x² + y² + z²) = 0` (equivalently `x = y = z = 0`); otherwise it returns
`[r, φ, θ]` with `r = sqrt(x² + y² + z²)`, `φ = atan2(y, x)` — always in
`(-π, π]` — and `θ = atan2(z, sqrt(x² + y²))`. -/
theorem cartesianToSpherical_domain (x y z : ℝ) :
    (cartesianToSpherical x y z = Except.error CoordErr.domainError ↔
      x = 0 ∧ y = 0 ∧ z = 0) ∧
    (¬(x = 0 ∧ y = 0 ∧ z = 0) →
      cartesianToSpherical x y z =
        Except.ok [Real.sqrt (x ^ 2 + y ^ 2 + z ^ 2), atan2 y x,
                   atan2 z (Real.sqrt (x ^ 2 + y ^ 2))]) ∧
    atan2 y x ∈ Set.Ioc (-Real.pi) Real.pi := by
  refine ⟨?_, ?_, atan2_mem_Ioc y x⟩
  · by_cases hc : Real.sqrt ((x * x + y * y) + z * z) = 0
    · rw [cartesianToSpherical, if_pos hc]
      simp [(sqrt_sum_sq_eq_zero_iff x y z).mp hc]
    · rw [cartesianToSpherical_ok x y z hc]
      simp only [reduceCtorEq, false_iff]
      exact fun h => hc ((sqrt_sum_sq_eq_zero_iff x y z).mpr h)
  · intro h
    have hc : Real.sqrt ((x * x + y * y) + z * z) ≠ 0 :=
      fun hc => h ((sqrt_sum_sq_eq_zero_iff x y z).mp hc)
    rw [cartesianToSpherical_ok x y z hc,
      show (x * x + y * y) + z * z = x ^ 2 + y ^ 2 + z ^ 2 from by ring,
      show x * x + y * y = x ^ 2 + y ^ 2 from by ring]

/-- C6 witness: the theorem applied at the nonzero point `(0, 0, 1)`. -/
theorem cartesianToSpherical_domain_witness :
    ¬((0 : ℝ) = 0 ∧ (0 : ℝ) = 0 ∧ (1 : ℝ) = 0) ∧
    cartesianToSpherical 0 0 1 =
      Except.ok [Real.sqrt (0 ^ 2 + 0 ^ 2 + 1 ^ 2), atan2 0 0,
                 atan2 1 (Real.sqrt (0 ^ 2 + 0 ^ 2))] :=
  ⟨by norm_num, (cartesianToSpherical_domain 0 0 1).2.1 (by norm_num)⟩

/-! ## C7: spherical/Cartesian round trip -/

/-- C7 (amended): for `φ ∈ (-π, π]` and `θ` in the open interval
`(-π/2, π/2)`, converting `sphericalToCartesian(1, φ, θ)` back with
`cartesianToSpherical` reproduces `[1, φ, θ]` exactly (in the real-number
model).  At the poles `θ = ±π/2` the longitude is not recovered (see the
counterexample). -/
theorem spherical_cartesian_roundtrip (phi theta : ℝ)
    (hphi : phi ∈ Set.Ioc (-Real.pi) Real.pi)
    (htheta : theta ∈ Set.Ioo (-(Real.pi / 2)) (Real.pi / 2)) :
    ∀ x y z, sphericalToCartesian 1 phi theta = [x, y, z] →
      cartesianToSpherical x y z = Except.ok [1, phi, theta] := by
  intro x y z h
  rw [sphericalToCartesian] at h
  obtain ⟨hx, hy, hz⟩ : 1 * Real.cos phi * Real.cos theta = x ∧
      1 * Real.sin phi * Real.cos theta = y ∧ 1 * Real.sin theta = z := by
    simpa using h
  have hcos : 0 < Real.cos theta := Real.cos_pos_of_mem_Ioo htheta
  have hxy : x * x + y * y = Real.cos theta ^ 2 := by
    rw [← hx, ← hy]
    linear_combination (Real.cos theta ^ 2) * Real.sin_sq_add_cos_sq phi
  have hxyz : (x * x + y * y) + z * z = 1 := by
    rw [hxy, ← hz]
    linear_combination Real.sin_sq_add_cos_sq theta
  have hs : Real.sqrt ((x * x + y * y) + z * z) = 1 := by
    rw [hxyz, Real.sqrt_one]
  have hsxy : Real.sqrt (x * x + y * y) = Real.cos theta := by
    rw [hxy, Real.sqrt_sq hcos.le]
  rw [cartesianToSpherical_ok x y z (by rw [hs]; norm_num), hs, hsxy]
  have hphi' : atan2 y x = phi := by
    rw [← hx, ← hy,
      show 1 * Real.sin phi * Real.cos theta = Real.cos theta * Real.sin phi from by ring,
      show 1 * Real.cos phi * Real.cos theta = Real.cos theta * Real.cos phi from by ring,
      atan2_scale hcos, atan2_cos_sin hphi]
  have htheta' : atan2 z (Real.cos theta) = theta := by
    rw [← hz, show (1 : ℝ) * Real.sin theta = Real.sin theta from by ring]
    refine atan2_cos_sin ⟨?_, ?_⟩
    · have h2 : -(Real.pi / 2) ≤ theta := htheta.1.le
      nlinarith [Real.pi_pos]
    · have h2 : theta ≤ Real.pi / 2 := htheta.2.le
      nlinarith [Real.pi_pos]
  rw [hphi', htheta']

/-- C7 counterexample: `(φ, θ) = (π, π/2)` lies in the claim's domain
(`φ ∈ (-π, π]`, `θ ∈ [-π/2, π/2]`), but the round trip returns longitude `0`
instead of `π`: at the pole the Cartesian image is `(0, 0, 1)` and
`atan2(0, 0) = 0`. -/
theorem spherical_cartesian_roundtrip_cex :
    Real.pi ∈ Set.Ioc (-Real.pi) Real.pi ∧
    Real.pi / 2 ∈ Set.Icc (-(Real.pi / 2)) (Real.pi / 2) ∧
    sphericalToCartesian 1 Real.pi (Real.pi / 2) = [0, 0, 1] ∧
    cartesianToSpherical 0 0 1 = Except.ok [1, 0, Real.pi / 2] ∧
    (0 : ℝ) ≠ Real.pi := by
  refine ⟨?_, ?_, ?_, ?_, ?_⟩
  · exact ⟨by nlinarith [Real.pi_pos], le_refl _⟩
  · exact ⟨by nlinarith [Real.pi_pos], le_refl _⟩
  · rw [sphericalToCartesian]
    norm_num [Real.cos_pi_div_two, Real.sin_pi_div_two]
  · rw [cartesianToSpherical_ok 0 0 1 (by norm_num)]
    norm_num [atan2_zero_zero, atan2_one_zero]
  · exact Real.pi_pos.ne

/-- C7 witness: the amended round trip applied at `(φ, θ) = (0, 0)`. -/
theorem spherical_cartesian_roundtrip_witness :
    cartesianToSpherical (1 * Real.cos 0 * Real.cos 0) (1 * Real.sin 0 * Real.cos 0)
      (1 * Real.sin 0) = Except.ok [1, 0, 0] :=
  spherical_cartesian_roundtrip 0 0
    (by constructor <;> simp [Real.pi_pos, Real.pi_pos.le])
    (by constructor <;> simp [Real.pi_pos])
    (1 * Real.cos 0 * Real.cos 0) (1 * Real.sin 0 * Real.cos 0) (1 * Real.sin 0) rfl

/-! ## Helpers for the transformation engine -/

theorem radians_degrees (x : ℝ) : radians (degrees x) = x := by
  rw [radians, degrees]
  field_simp
  ring

theorem degrees_radians (x : ℝ) : degrees (radians x) = x := by
  rw [radians, degrees]
  field_simp
  ring

theorem radians_mem_Ioc {phi : ℝ} (h1 : -180 < phi) (h2 : phi ≤ 180) :
    radians phi ∈ Set.Ioc (-Real.pi) Real.pi := by
  constructor
  · have h := mul_pos (show (0 : ℝ) < Real.pi / 180 by positivity)
      (show (0 : ℝ) < phi + 180 by linarith)
    rw [radians]; nlinarith
  · have h := mul_nonneg (show (0 : ℝ) ≤ Real.pi / 180 by positivity)
      (show (0 : ℝ) ≤ 180 - phi by linarith)
    rw [radians]; nlinarith

theorem radians_mem_Ioo {theta : ℝ} (h1 : -90 < theta) (h2 : theta < 90) :
    radians theta ∈ Set.Ioo (-(Real.pi / 2)) (Real.pi / 2) := by
  constructor
  · have h := mul_pos (show (0 : ℝ) < Real.pi / 180 by positivity)
      (show (0 : ℝ) < theta + 90 by linarith)
    rw [radians]; nlinarith
  · have h := mul_pos (show (0 : ℝ) < Real.pi / 180 by positivity)
      (show (0 : ℝ) < 90 - theta by linarith)
    rw [radians]; nlinarith

theorem dotMatVec_eval33 (a b c d e f g h i x y z : ℝ) :
    dotMatVec [[a, b, c], [d, e, f], [g, h, i]] [x, y, z] =
      Except.ok [a * x + b * y + c * z, d * x + e * y + f * z, g * x + h * y + i * z] := by
  rw [show dotMatVec [[a, b, c], [d, e, f], [g, h, i]] [x, y, z] =
    Except.ok [0 + a * x + b * y + c * z, 0 + d * x + e * y + f * z,
               0 + g * x + h * y + i * z] from rfl]
  norm_num

theorem matProd3_eval (a b c d e f g h i p q r s t u v w x : ℝ) :
    matProd3 [[a, b, c], [d, e, f], [g, h, i]] [[p, q, r], [s, t, u], [v, w, x]] =
      [[a * p + b * s + c * v, a * q + b * t + c * w, a * r + b * u + c * x],
       [d * p + e * s + f * v, d * q + e * t + f * w, d * r + e * u + f * x],
       [g * p + h * s + i * v, g * q + h * t + i * w, g * r + h * u + i * x]] := by
  simp [matProd3, ent, show List.range 3 = [0, 1, 2] from rfl,
    Finset.sum_range_succ, Finset.sum_range_zero]

theorem transpose3_eval (a b c d e f g h i : ℝ) :
    transpose3 [[a, b, c], [d, e, f], [g, h, i]] = [[a, d, g], [b, e, h], [c, f, i]] := by
  simp [transpose3, ent, show List.range 3 = [0, 1, 2] from rfl]

theorem isMat33_exists (M : valarray2d ℝ) (hM : isMat 3 3 M) :
    ∃ a b c d e f g h i, M = [[a, b, c], [d, e, f], [g, h, i]] := by
  obtain ⟨hlen, hrow⟩ := hM
  obtain ⟨r0, r1, r2, rfl⟩ := List.length_eq_three.mp hlen
  obtain ⟨a, b, c, rfl⟩ := List.length_eq_three.mp (hrow r0 (by simp))
  obtain ⟨d, e, f, rfl⟩ := List.length_eq_three.mp (hrow r1 (by simp))
  obtain ⟨g, h, i, rfl⟩ := List.length_eq_three.mp (hrow r2 (by simp))
  exact ⟨a, b, c, d, e, f, g, h, i, rfl⟩

theorem apply_transformation_unfold (R : RotationConstants) (n : String) (phi theta : ℝ)
    (M : valarray2d ℝ) (w0 w1 w2 rr a b : ℝ)
    (hM : _get_rotationMatrix R n = Except.ok M)
    (hrot : dotMatVec M (sphericalToCartesian 1 (radians phi) (radians theta)) =
      Except.ok [w0, w1, w2])
    (hcart : cartesianToSpherical w0 w1 w2 = Except.ok [rr, a, b]) :
    apply_transformation R n phi theta true = Except.ok [degrees a, degrees b] := by
  simp [apply_transformation, hM, hrot, hcart, idx, Bind.bind, Except.bind, pure, Except.pure]

theorem get_GAL2ICRS (R : RotationConstants) :
    _get_rotationMatrix R "GAL2ICRS" = Except.ok R._rotationMatrixGalacticToIcrs := by
  have h : "GAL2ICRS".data.map Char.toUpper = "GAL2ICRS".data := by decide
  simp [_get_rotationMatrix, h]

theorem get_ICRS2GAL (R : RotationConstants) :
    _get_rotationMatrix R "ICRS2GAL" = Except.ok R._rotationMatrixIcrsToGalactic := by
  have h : "ICRS2GAL".data.map Char.toUpper = "ICRS2GAL".data := by decide
  simp [_get_rotationMatrix, h]

theorem get_ECL2ICRS (R : RotationConstants) :
    _get_rotationMatrix R "ECL2ICRS" = Except.ok R._rotationMatrixEclipticToIcrs := by
  have h : "ECL2ICRS".data.map Char.toUpper = "ECL2ICRS".data := by decide
  simp [_get_rotationMatrix, h]

theorem get_ICRS2ECL (R : RotationConstants) :
    _get_rotationMatrix R "ICRS2ECL" = Except.ok R._rotationMatrixIcrsToEcliptic := by
  have h : "ICRS2ECL".data.map Char.toUpper = "ICRS2ECL".data := by decide
  simp [_get_rotationMatrix, h]

theorem get_GAL2ECL (R : RotationConstants) :
    _get_rotationMatrix R "GAL2ECL" = Except.ok R._rotationMatrixGalacticToEcliptic := by
  have h : "GAL2ECL".data.map Char.toUpper = "GAL2ECL".data := by decide
  simp [_get_rotationMatrix, h]

theorem get_ECL2GAL (R : RotationConstants) :
    _get_rotationMatrix R "ECL2GAL" = Except.ok R._rotationMatrixEclipticToGalactic := by
  have h : "ECL2GAL".data.map Char.toUpper = "ECL2GAL".data := by decide
  simp [_get_rotationMatrix, h]

/-! ## Reconstruction of a direction from its spherical angles -/

theorem sphericalToCartesian_reconstruct (w0 w1 w2 : ℝ)
    (hs : Real.sqrt ((w0 * w0 + w1 * w1) + w2 * w2) ≠ 0) :
    sphericalToCartesian 1 (atan2 w1 w0) (atan2 w2 (Real.sqrt (w0 * w0 + w1 * w1))) =
      [w0 / Real.sqrt ((w0 * w0 + w1 * w1) + w2 * w2),
       w1 / Real.sqrt ((w0 * w0 + w1 * w1) + w2 * w2),
       w2 / Real.sqrt ((w0 * w0 + w1 * w1) + w2 * w2)] := by
  have hsum_nonneg : (0 : ℝ) ≤ (w0 * w0 + w1 * w1) + w2 * w2 := by
    nlinarith [mul_self_nonneg w0, mul_self_nonneg w1, mul_self_nonneg w2]
  have hxy_nonneg : (0 : ℝ) ≤ w0 * w0 + w1 * w1 := by
    nlinarith [mul_self_nonneg w0, mul_self_nonneg w1]
  set S := Real.sqrt ((w0 * w0 + w1 * w1) + w2 * w2) with hS_def
  set RHO := Real.sqrt (w0 * w0 + w1 * w1) with hRHO_def
  have hS_pos : 0 < S := lt_of_le_of_ne (Real.sqrt_nonneg _) (Ne.symm hs)
  have hSS : S * S = (w0 * w0 + w1 * w1) + w2 * w2 := Real.mul_self_sqrt hsum_nonneg
  have hRR : RHO * RHO = w0 * w0 + w1 * w1 := Real.mul_self_sqrt hxy_nonneg
  have hRHO_nonneg : 0 ≤ RHO := Real.sqrt_nonneg _
  have habs1 : Complex.abs ⟨RHO, w2⟩ = S := by
    rw [abs_complex_mk, hRR, ← hS_def]
  have hne1 : (⟨RHO, w2⟩ : ℂ) ≠ 0 := by
    intro h0
    rw [h0, map_zero] at habs1
    exact hS_pos.ne habs1
  have hcosb : Real.cos (atan2 w2 RHO) = RHO / S := by
    rw [atan2, Complex.cos_arg hne1, habs1]
  have hsinb : Real.sin (atan2 w2 RHO) = w2 / S := by
    rw [atan2, Complex.sin_arg, habs1]
  rw [sphericalToCartesian]
  by_cases hrho0 : RHO = 0
  · have hww : w0 * w0 + w1 * w1 = 0 := by rw [← hRR, hrho0]; ring
    have hw0 : w0 = 0 := by nlinarith [mul_self_nonneg w0, mul_self_nonneg w1]
    have hw1 : w1 = 0 := by nlinarith [mul_self_nonneg w0, mul_self_nonneg w1]
    rw [hcosb, hsinb, hrho0, hw0, hw1]
    norm_num
  · have hrho_pos : 0 < RHO := lt_of_le_of_ne hRHO_nonneg (Ne.symm hrho0)
    have habs2 : Complex.abs ⟨w0, w1⟩ = RHO := by rw [abs_complex_mk, ← hRHO_def]
    have hne2 : (⟨w0, w1⟩ : ℂ) ≠ 0 := by
      intro h0
      rw [h0, map_zero] at habs2
      exact hrho_pos.ne habs2
    have hcosa : Real.cos (atan2 w1 w0) = w0 / RHO := by
      rw [atan2, Complex.cos_arg hne2, habs2]
    have hsina : Real.sin (atan2 w1 w0) = w1 / RHO := by
      rw [atan2, Complex.sin_arg, habs2]
    rw [hcosa, hsina, hcosb, hsinb]
    have e0 : 1 * (w0 / RHO) * (RHO / S) = w0 / S := by
      field_simp
    have e1 : 1 * (w1 / RHO) * (RHO / S) = w1 / S := by
      field_simp
    rw [e0, e1, one_mul]

/-! ## The round trip through a matrix and its inverse -/

theorem sum_sq_nonpos {x y z : ℝ} (h : (x * x + y * y) + z * z ≤ 0) :
    x = 0 ∧ y = 0 ∧ z = 0 := by
  refine ⟨?_, ?_, ?_⟩ <;>
    nlinarith [mul_self_nonneg x, mul_self_nonneg y, mul_self_nonneg z]

theorem Ioo_half_subset_Ioc {t : ℝ} (h : t ∈ Set.Ioo (-(Real.pi / 2)) (Real.pi / 2)) :
    t ∈ Set.Ioc (-Real.pi) Real.pi := by
  obtain ⟨ha, hb⟩ := h
  constructor
  · nlinarith [Real.pi_pos]
  · nlinarith [Real.pi_pos]

set_option maxHeartbeats 1600000 in
theorem roundtrip_core (R : RotationConstants) (nm nm' : String) (M M' : valarray2d ℝ)
    (hget : _get_rotationMatrix R nm = Except.ok M)
    (hget' : _get_rotationMatrix R nm' = Except.ok M')
    (hM : isMat 3 3 M) (hM' : isMat 3 3 M')
    (hinv : matProd3 M' M = id3)
    (phi theta : ℝ)
    (h1 : -180 < phi) (h2 : phi ≤ 180) (h3 : -90 < theta) (h4 : theta < 90) :
    ∃ a b, apply_transformation R nm phi theta true = Except.ok [a, b] ∧
      apply_transformation R nm' a b true = Except.ok [phi, theta] := by
  obtain ⟨m00, m01, m02, m10, m11, m12, m20, m21, m22, rfl⟩ := isMat33_exists M hM
  obtain ⟨n00, n01, n02, n10, n11, n12, n20, n21, n22, rfl⟩ := isMat33_exists M' hM'
  rw [matProd3_eval] at hinv
  simp only [id3, List.cons.injEq, and_true] at hinv
  obtain ⟨⟨q00, q01, q02⟩, ⟨q10, q11, q12⟩, q20, q21, q22⟩ := hinv
  have hps := radians_mem_Ioc h1 h2
  have hts := radians_mem_Ioo h3 h4
  have hcosT : 0 < Real.cos (radians theta) := Real.cos_pos_of_mem_Ioo hts
  set P := radians phi with hP
  set T := radians theta with hT
  set v0 := Real.cos P * Real.cos T with hv0
  set v1 := Real.sin P * Real.cos T with hv1
  set v2 := Real.sin T with hv2
  have hunit : v0 * v0 + v1 * v1 + v2 * v2 = 1 := by
    rw [hv0, hv1, hv2]
    linear_combination (Real.cos T) ^ 2 * Real.sin_sq_add_cos_sq P + Real.sin_sq_add_cos_sq T
  have hsph : sphericalToCartesian 1 P T = [v0, v1, v2] := by
    rw [sphericalToCartesian, hv0, hv1, hv2]
    norm_num
  set w0 := m00 * v0 + m01 * v1 + m02 * v2 with hw0
  set w1 := m10 * v0 + m11 * v1 + m12 * v2 with hw1
  set w2 := m20 * v0 + m21 * v1 + m22 * v2 with hw2
  have hrot : dotMatVec [[m00, m01, m02], [m10, m11, m12], [m20, m21, m22]]
      (sphericalToCartesian 1 P T) = Except.ok [w0, w1, w2] := by
    rw [hsph, dotMatVec_eval33, hw0, hw1, hw2]
  have hvw0 : n00 * w0 + n01 * w1 + n02 * w2 = v0 := by
    rw [hw0, hw1, hw2]
    linear_combination v0 * q00 + v1 * q01 + v2 * q02
  have hvw1 : n10 * w0 + n11 * w1 + n12 * w2 = v1 := by
    rw [hw0, hw1, hw2]
    linear_combination v0 * q10 + v1 * q11 + v2 * q12
  have hvw2 : n20 * w0 + n21 * w1 + n22 * w2 = v2 := by
    rw [hw0, hw1, hw2]
    linear_combination v0 * q20 + v1 * q21 + v2 * q22
  have hw_pos : 0 < (w0 * w0 + w1 * w1) + w2 * w2 := by
    by_contra hcon
    push_neg at hcon
    obtain ⟨hz0, hz1, hz2⟩ := sum_sq_nonpos hcon
    rw [hz0, hz1, hz2] at hvw0 hvw1 hvw2
    have e0 : v0 = 0 := by rw [← hvw0]; ring
    have e1 : v1 = 0 := by rw [← hvw1]; ring
    have e2 : v2 = 0 := by rw [← hvw2]; ring
    rw [e0, e1, e2] at hunit
    norm_num at hunit
  have hs_ne : Real.sqrt ((w0 * w0 + w1 * w1) + w2 * w2) ≠ 0 :=
    (Real.sqrt_pos.mpr hw_pos).ne'
  have hs_pos : 0 < Real.sqrt ((w0 * w0 + w1 * w1) + w2 * w2) := Real.sqrt_pos.mpr hw_pos
  have hSS : Real.sqrt ((w0 * w0 + w1 * w1) + w2 * w2) *
      Real.sqrt ((w0 * w0 + w1 * w1) + w2 * w2) = (w0 * w0 + w1 * w1) + w2 * w2 :=
    Real.mul_self_sqrt (le_of_lt hw_pos)
  set S := Real.sqrt ((w0 * w0 + w1 * w1) + w2 * w2) with hS
  have hcart1 : cartesianToSpherical w0 w1 w2 =
      Except.ok [S, atan2 w1 w0, atan2 w2 (Real.sqrt (w0 * w0 + w1 * w1))] :=
    cartesianToSpherical_ok w0 w1 w2 hs_ne
  have happly1 : apply_transformation R nm phi theta true =
      Except.ok [degrees (atan2 w1 w0),
                 degrees (atan2 w2 (Real.sqrt (w0 * w0 + w1 * w1)))] := by
    refine apply_transformation_unfold R nm phi theta _ w0 w1 w2 S _ _ hget ?_ hcart1
    rw [← hP, ← hT]
    exact hrot
  -- second application
  have hdiv0 : n00 * (w0 / S) + n01 * (w1 / S) + n02 * (w2 / S) = v0 / S := by
    field_simp
    linear_combination hvw0
  have hdiv1 : n10 * (w0 / S) + n11 * (w1 / S) + n12 * (w2 / S) = v1 / S := by
    field_simp
    linear_combination hvw1
  have hdiv2 : n20 * (w0 / S) + n21 * (w1 / S) + n22 * (w2 / S) = v2 / S := by
    field_simp
    linear_combination hvw2
  have hrot2 : dotMatVec [[n00, n01, n02], [n10, n11, n12], [n20, n21, n22]]
      (sphericalToCartesian 1 (radians (degrees (atan2 w1 w0)))
        (radians (degrees (atan2 w2 (Real.sqrt (w0 * w0 + w1 * w1)))))) =
      Except.ok [v0 / S, v1 / S, v2 / S] := by
    rw [radians_degrees, radians_degrees, sphericalToCartesian_reconstruct w0 w1 w2 hs_ne,
      ← hS, dotMatVec_eval33, hdiv0, hdiv1, hdiv2]
  have hsum2 : ((v0 / S) * (v0 / S) + (v1 / S) * (v1 / S)) + (v2 / S) * (v2 / S) =
      (1 / S) * (1 / S) := by
    field_simp
    linear_combination hunit
  have hsqrt2 : Real.sqrt (((v0 / S) * (v0 / S) + (v1 / S) * (v1 / S)) +
      (v2 / S) * (v2 / S)) = 1 / S := by
    rw [hsum2, Real.sqrt_mul_self (by positivity)]
  have hang1 : atan2 (v1 / S) (v0 / S) = P := by
    rw [div_eq_inv_mul, div_eq_inv_mul, atan2_scale (inv_pos.mpr hs_pos), hv0, hv1,
      mul_comm (Real.sin P) (Real.cos T), mul_comm (Real.cos P) (Real.cos T),
      atan2_scale hcosT]
    exact atan2_cos_sin hps
  have hv01 : Real.sqrt ((v0 / S) * (v0 / S) + (v1 / S) * (v1 / S)) = Real.cos T / S := by
    rw [show (v0 / S) * (v0 / S) + (v1 / S) * (v1 / S) =
        (Real.cos T / S) * (Real.cos T / S) from by
      rw [hv0, hv1]; field_simp; linear_combination
        (Real.cos T) ^ 2 * Real.sin_sq_add_cos_sq P]
    exact Real.sqrt_mul_self (by positivity)
  have hang2 : atan2 (v2 / S) (Real.cos T / S) = T := by
    rw [div_eq_inv_mul, div_eq_inv_mul, atan2_scale (inv_pos.mpr hs_pos), hv2]
    exact atan2_cos_sin (Ioo_half_subset_Ioc hts)
  have hcart2 : cartesianToSpherical (v0 / S) (v1 / S) (v2 / S) =
      Except.ok [1 / S, P, T] := by
    rw [cartesianToSpherical_ok (v0 / S) (v1 / S) (v2 / S) (by rw [hsqrt2]; positivity),
      hsqrt2, hv01, hang1, hang2]
  have happly2 : apply_transformation R nm'
      (degrees (atan2 w1 w0)) (degrees (atan2 w2 (Real.sqrt (w0 * w0 + w1 * w1)))) true =
      Except.ok [degrees P, degrees T] :=
    apply_transformation_unfold R nm' _ _ _ (v0 / S) (v1 / S) (v2 / S) (1 / S) P T
      hget' hrot2 hcart2
  refine ⟨degrees (atan2 w1 w0), degrees (atan2 w2 (Real.sqrt (w0 * w0 + w1 * w1))),
    happly1, ?_⟩
  rw [happly2, hP, hT, degrees_radians, degrees_radians]

/-! ## The identity instance of the six constants -/

theorem id3_isMat : isMat 3 3 id3 := by
  refine ⟨rfl, ?_⟩
  intro row hrow
  simp only [id3, List.mem_cons, List.not_mem_nil, or_false] at hrow
  rcases hrow with rfl | rfl | rfl <;> rfl

theorem transpose3_id3 : transpose3 id3 = id3 := by
  rw [id3, transpose3_eval]

theorem matProd3_id3 : matProd3 id3 id3 = id3 := by
  rw [id3, matProd3_eval]
  norm_num

theorem idConstants_spec : SpecInvariants idConstants :=
  ⟨id3_isMat, id3_isMat, id3_isMat, id3_isMat, id3_isMat, id3_isMat,
   transpose3_id3, transpose3_id3, transpose3_id3,
   matProd3_id3, matProd3_id3, matProd3_id3, matProd3_id3, matProd3_id3, matProd3_id3⟩

/-! ## C1: round trip of apply_transformation with its inverse name -/

/-- C1 (amended): for constants satisfying the spec's invariants, for each of
the six name/documented-inverse pairs, and for every `φ ∈ (-180, 180]` and
`θ` in the open interval `(-90, 90)` degrees, applying the transformation and
then its inverse returns the original pair exactly (in the real-number
model), hence within any tolerance.  At the poles `θ = ±90` and at
`φ = -180` the returned longitude is a different representative of the same
point (see the counterexample). -/
theorem apply_transformation_roundtrip (R : RotationConstants) (hR : SpecInvariants R)
    (nm nm' : String) (hpair : InversePair nm nm') (phi theta : ℝ)
    (h1 : -180 < phi) (h2 : phi ≤ 180) (h3 : -90 < theta) (h4 : theta < 90) :
    ∃ a b, apply_transformation R nm phi theta true = Except.ok [a, b] ∧
      apply_transformation R nm' a b true = Except.ok [phi, theta] := by
  rcases hpair with ⟨rfl, rfl⟩ | ⟨rfl, rfl⟩ | ⟨rfl, rfl⟩ | ⟨rfl, rfl⟩ | ⟨rfl, rfl⟩ | ⟨rfl, rfl⟩
  · exact roundtrip_core R _ _ _ _ (get_GAL2ICRS R) (get_ICRS2GAL R) hR.gi_shape hR.ig_shape
      hR.ig_gi phi theta h1 h2 h3 h4
  · exact roundtrip_core R _ _ _ _ (get_ICRS2GAL R) (get_GAL2ICRS R) hR.ig_shape hR.gi_shape
      hR.gi_ig phi theta h1 h2 h3 h4
  · exact roundtrip_core R _ _ _ _ (get_ECL2ICRS R) (get_ICRS2ECL R) hR.ei_shape hR.ie_shape
      hR.ie_ei phi theta h1 h2 h3 h4
  · exact roundtrip_core R _ _ _ _ (get_ICRS2ECL R) (get_ECL2ICRS R) hR.ie_shape hR.ei_shape
      hR.ei_ie phi theta h1 h2 h3 h4
  · exact roundtrip_core R _ _ _ _ (get_GAL2ECL R) (get_ECL2GAL R) hR.ge_shape hR.eg_shape
      hR.eg_ge phi theta h1 h2 h3 h4
  · exact roundtrip_core R _ _ _ _ (get_ECL2GAL R) (get_GAL2ECL R) hR.eg_shape hR.ge_shape
      hR.ge_eg phi theta h1 h2 h3 h4

/-- C1 counterexample: with constants satisfying every spec invariant (all
six the identity), the inputs `(φ, θ) = (180, 90)` (a pole) and
`(φ, θ) = (-180, 0)` (the longitude-wrap boundary) lie in the claim's stated
domain `φ ∈ [-180, 180]`, `θ ∈ [-90, 90]`, yet GAL2ICRS followed by ICRS2GAL
returns `(0, 90)` and `(180, 0)` respectively: the longitude differs from the
original by `180` resp. `360` degrees, far beyond the `1e-9` tolerance. -/
theorem apply_transformation_roundtrip_cex :
    SpecInvariants idConstants ∧
    InversePair "GAL2ICRS" "ICRS2GAL" ∧
    apply_transformation idConstants "GAL2ICRS" 180 90 true = Except.ok [0, 90] ∧
    apply_transformation idConstants "ICRS2GAL" 0 90 true = Except.ok [0, 90] ∧
    ¬|(0 : ℝ) - 180| ≤ 1 / 1000000000 ∧
    apply_transformation idConstants "GAL2ICRS" (-180) 0 true = Except.ok [180, 0] ∧
    apply_transformation idConstants "ICRS2GAL" 180 0 true = Except.ok [180, 0] ∧
    ¬|(180 : ℝ) - -180| ≤ 1 / 1000000000 := by
  have hrad180 : radians 180 = Real.pi := by rw [radians]; ring
  have hrad90 : radians 90 = Real.pi / 2 := by rw [radians]; ring
  have hrad0 : radians 0 = 0 := by rw [radians]; ring
  have hsph1 : sphericalToCartesian 1 (radians 180) (radians 90) = [0, 0, 1] := by
    rw [hrad180, hrad90, sphericalToCartesian]
    norm_num [Real.cos_pi, Real.sin_pi, Real.cos_pi_div_two, Real.sin_pi_div_two]
  have hsph2 : sphericalToCartesian 1 (radians 0) (radians 90) = [0, 0, 1] := by
    rw [hrad0, hrad90, sphericalToCartesian]
    norm_num [Real.cos_pi_div_two, Real.sin_pi_div_two]
  have hid : idConstants._rotationMatrixGalacticToIcrs = [[(1 : ℝ), 0, 0], [0, 1, 0], [0, 0, 1]] := rfl
  have hid' : idConstants._rotationMatrixIcrsToGalactic = [[(1 : ℝ), 0, 0], [0, 1, 0], [0, 0, 1]] := rfl
  have hrot1 : dotMatVec idConstants._rotationMatrixGalacticToIcrs
      (sphericalToCartesian 1 (radians 180) (radians 90)) = Except.ok [0, 0, 1] := by
    rw [hsph1, hid, dotMatVec_eval33]
    norm_num
  have hrot2 : dotMatVec idConstants._rotationMatrixIcrsToGalactic
      (sphericalToCartesian 1 (radians 0) (radians 90)) = Except.ok [0, 0, 1] := by
    rw [hsph2, hid', dotMatVec_eval33]
    norm_num
  have hcart : cartesianToSpherical 0 0 1 = Except.ok [1, 0, Real.pi / 2] := by
    rw [cartesianToSpherical_ok 0 0 1 (by norm_num)]
    norm_num [atan2_zero_zero, atan2_one_zero]
  have hdeg0 : degrees 0 = 0 := by rw [degrees]; ring
  have hdeg90 : degrees (Real.pi / 2) = 90 := by
    rw [degrees]
    field_simp
    ring
  have happ1 : apply_transformation idConstants "GAL2ICRS" 180 90 true =
      Except.ok [degrees 0, degrees (Real.pi / 2)] :=
    apply_transformation_unfold idConstants "GAL2ICRS" 180 90 _ 0 0 1 1 0 (Real.pi / 2)
      (get_GAL2ICRS idConstants) hrot1 hcart
  have happ2 : apply_transformation idConstants "ICRS2GAL" 0 90 true =
      Except.ok [degrees 0, degrees (Real.pi / 2)] :=
    apply_transformation_unfold idConstants "ICRS2GAL" 0 90 _ 0 0 1 1 0 (Real.pi / 2)
      (get_ICRS2GAL idConstants) hrot2 hcart
  rw [hdeg0, hdeg90] at happ1 happ2
  have hradneg : radians (-180) = -Real.pi := by rw [radians]; ring
  have hsph3 : sphericalToCartesian 1 (radians (-180)) (radians 0) = [-1, 0, 0] := by
    rw [hradneg, hrad0, sphericalToCartesian]
    norm_num [Real.cos_pi, Real.sin_pi]
  have hsph4 : sphericalToCartesian 1 (radians 180) (radians 0) = [-1, 0, 0] := by
    rw [hrad180, hrad0, sphericalToCartesian]
    norm_num [Real.cos_pi, Real.sin_pi]
  have hrot3 : dotMatVec idConstants._rotationMatrixGalacticToIcrs
      (sphericalToCartesian 1 (radians (-180)) (radians 0)) = Except.ok [-1, 0, 0] := by
    rw [hsph3, hid, dotMatVec_eval33]
    norm_num
  have hrot4 : dotMatVec idConstants._rotationMatrixIcrsToGalactic
      (sphericalToCartesian 1 (radians 180) (radians 0)) = Except.ok [-1, 0, 0] := by
    rw [hsph4, hid', dotMatVec_eval33]
    norm_num
  have hcart34 : cartesianToSpherical (-1) 0 0 = Except.ok [1, Real.pi, 0] := by
    rw [cartesianToSpherical_ok (-1) 0 0 (by norm_num)]
    norm_num [atan2_zero_neg_one, atan2_zero_one]
  have hdeg180 : degrees Real.pi = 180 := by
    rw [degrees]
    field_simp
  have happ3 : apply_transformation idConstants "GAL2ICRS" (-180) 0 true =
      Except.ok [degrees Real.pi, degrees 0] :=
    apply_transformation_unfold idConstants "GAL2ICRS" (-180) 0 _ (-1) 0 0 1 Real.pi 0
      (get_GAL2ICRS idConstants) hrot3 hcart34
  have happ4 : apply_transformation idConstants "ICRS2GAL" 180 0 true =
      Except.ok [degrees Real.pi, degrees 0] :=
    apply_transformation_unfold idConstants "ICRS2GAL" 180 0 _ (-1) 0 0 1 Real.pi 0
      (get_ICRS2GAL idConstants) hrot4 hcart34
  rw [hdeg180, hdeg0] at happ3 happ4
  refine ⟨idConstants_spec, Or.inl ⟨rfl, rfl⟩, happ1, happ2, ?_, happ3, happ4, ?_⟩
  · rw [show (0 : ℝ) - 180 = -180 from by ring, abs_neg,
      abs_of_nonneg (by norm_num : (0:ℝ) ≤ 180)]
    norm_num
  · rw [show (180 : ℝ) - -180 = 360 from by ring,
      abs_of_nonneg (by norm_num : (0:ℝ) ≤ 360)]
    norm_num

/-- C1 witness: the amended round trip applied to the identity instance at
`(φ, θ) = (0, 0)`. -/
theorem apply_transformation_roundtrip_witness :
    SpecInvariants idConstants ∧
    InversePair "GAL2ICRS" "ICRS2GAL" ∧
    (∃ a b, apply_transformation idConstants "GAL2ICRS" 0 0 true = Except.ok [a, b] ∧
      apply_transformation idConstants "ICRS2GAL" a b true = Except.ok [0, 0]) :=
  ⟨idConstants_spec, Or.inl ⟨rfl, rfl⟩,
   apply_transformation_roundtrip idConstants idConstants_spec "GAL2ICRS" "ICRS2GAL"
     (Or.inl ⟨rfl, rfl⟩) 0 0 (by norm_num) (by norm_num) (by norm_num) (by norm_num)⟩
